import Mathlib

/-!
Shallow embedding of the projectA backend core: the auth utilities
(`src/auth.py`), the auth routes (`src/routes_auth.py`) and the media
routes (`src/routes_media.py`).

Collaborators that are part of the repository but not under `src/`
(`config.py`, `utils.py`, `database.py`, `storage.py`, the `jose` JWT
layer and the bcrypt hasher) are modelled from the spec where a claim
depends on them; each such definition carries a doc comment starting
`Modelled from the spec:`.  Everything else is translated directly from
the Python source.

Python strings are modelled as Lean `String`; timestamps as `Int`
seconds; byte payload sizes as `Nat`.  A Python function that raises an
`HTTPException` is modelled as returning `Except`.  Calls to the blob
store and the document store are additionally recorded in an explicit
effect trace, so that "no storage write occurs" is statable.
-/

namespace ProjectA

/-! ### Character-list string helpers

Lean's builtin `String.startsWith`, `String.splitOn` and
`String.replace` do not reduce in the kernel, so the Python string
operations used by the source are embedded as structural recursions on
`List Char` with the same semantics. -/

/-- `charsStartWith s p` is Python `s.startswith(p)` on character lists. -/
def charsStartWith : List Char → List Char → Bool
  | _, [] => true
  | [], _ :: _ => false
  | c :: cs, p :: ps => c = p && charsStartWith cs ps

/-- Python `s.startswith(p)` on `String`. -/
def strStartsWith (s p : String) : Bool :=
  charsStartWith s.data p.data

/-- The characters after the last `/`, i.e. Python `s.split("/")[-1]`. -/
def lastSegAux : List Char → List Char → List Char
  | [], acc => acc.reverse
  | c :: cs, acc => if c = '/' then lastSegAux cs [] else lastSegAux cs (c :: acc)

/-- Python `s.split("/")[-1]`. -/
def lastSeg (s : String) : String :=
  ⟨lastSegAux s.data []⟩

/-- Python `s.replace("", new)`: `new` interleaved before every character
and appended at the end. -/
def interposeChars (new : List Char) : List Char → List Char
  | [] => new
  | c :: cs => new ++ c :: interposeChars new cs

/-- Python `s.replace(old, new)` for nonempty `old`: every occurrence of
`old` replaced by `new`, scanning left to right.  Each step consumes at
least one character of `s`, so `fuel := s.length` makes the structural
recursion on `fuel` exhaustive. -/
def replaceNE (old new : List Char) : Nat → List Char → List Char
  | 0, s => s
  | fuel + 1, s =>
    if charsStartWith s old then
      new ++ replaceNE old new fuel (s.drop old.length)
    else
      match s with
      | [] => []
      | c :: cs => c :: replaceNE old new fuel cs

/-- Python `s.replace(old, new)` (all occurrences). -/
def pyReplace (s old new : String) : String :=
  match old.data with
  | [] => ⟨interposeChars new.data s.data⟩
  | o :: os => ⟨replaceNE (o :: os) new.data s.data.length s.data⟩

/-! ### JSON values

`json.loads` in `upload_media` can produce any JSON value; the tag list
stored on an asset is whatever list the payload decoded to (the source
never checks element types), so asset tags are `List Json`. -/

/-- A JSON value, as produced by Python's `json.loads`. -/
inductive Json where
  | null : Json
  | bool (b : Bool) : Json
  | num (n : Int) : Json
  | str (s : String) : Json
  | arr (elems : List Json) : Json
  | obj (fields : List (String × Json)) : Json
deriving Repr

/-! ### Configuration

`config.py` is not under `src/`. -/

/-- Modelled from the spec: `config.settings` (file `config.py` is not
under `src/`).  §9: process-wide configuration holds the signing key, the
algorithm, the default token lifetime and the size limit, loaded once at
startup. -/
structure Settings where
  jwt_secret_key : String
  jwt_algorithm : String
  jwt_access_token_expire_minutes : Int
  max_file_size : Nat
deriving Repr, DecidableEq

/-! ### auth.py : token service and identity extraction -/

/-- The claim dictionaries the source builds (`{"sub": ..., "email": ...}`,
plus the `"exp"` entry added by `generate_jwt_token`).  An absent key is
`none`. -/
structure JwtClaims where
  sub : Option String := none
  email : Option String := none
  exp : Option Int := none
deriving Repr, DecidableEq

/-- A serialized bearer token as seen by `jwt.decode`: either malformed,
or a signed claim set carrying the key it was signed with. -/
inductive RawToken where
  | malformed : RawToken
  | signed (claims : JwtClaims) (key : String) : RawToken
deriving Repr, DecidableEq

/-- The `AuthError` taxonomy of §7: `invalidToken` is the 401 raised in
`parse_jwt_payload` (signature invalid, malformed, or expired);
`missingSubject` is the 401 raised in `extract_authenticated_id` when the
decoded payload has no `"sub"` claim. -/
inductive AuthError where
  | invalidToken : AuthError
  | missingSubject : AuthError
deriving Repr, DecidableEq

/-- `auth.generate_jwt_token(data, expiration_offset)`.  `now` is
`datetime.utcnow()` in seconds; `expirationOffset` is the optional
`timedelta` in seconds.  Note the source guard is `if expiration_offset:`
— Python truthiness — so a supplied zero offset takes the `else` branch
exactly like `None`; the embedding tests `off = 0` accordingly.  The
payload is `data` with `"exp"` set to the computed instant, signed with
the process-wide secret key. -/
def generate_jwt_token (cfg : Settings) (now : Int) (data : JwtClaims)
    (expirationOffset : Option Int) : RawToken :=
  let expire : Int :=
    match expirationOffset with
    | some off =>
        if off = 0 then now + cfg.jwt_access_token_expire_minutes * 60
        else now + off
    | none => now + cfg.jwt_access_token_expire_minutes * 60
  .signed { data with exp := some expire } cfg.jwt_secret_key

/-- Modelled from the spec: `jose.jwt.decode` (the `jose` library is not
part of `src/`).  §4.2: `validate` verifies signature and expiration and
fails if the signature is invalid, the token malformed, or the token
expired; a token is expired once its expiration instant has passed, so a
token with `exp = e` still validates at `now = e` and fails for `now > e`.
Returns the claim set on success, `none` on any failure. -/
def jwt_decode (secret : String) (now : Int) : RawToken → Option JwtClaims
  | .malformed => none
  | .signed claims key =>
    if key = secret then
      match claims.exp with
      | some e => if e < now then none else some claims
      | none => some claims
    else none

/-- `auth.parse_jwt_payload(token)`: decode and verify, mapping any
decode failure (`JWTError`) to the 401 `invalidToken`. -/
def parse_jwt_payload (cfg : Settings) (now : Int) (token : RawToken) :
    Except AuthError JwtClaims :=
  match jwt_decode cfg.jwt_secret_key now token with
  | some payload => .ok payload
  | none => .error .invalidToken

/-- `auth.extract_authenticated_id`: decode the bearer token, then read
`payload.get("sub")`; a missing subject raises the second 401
(`missingSubject`), otherwise the subject is returned as the account id. -/
def extract_authenticated_id (cfg : Settings) (now : Int) (token : RawToken) :
    Except AuthError String :=
  match parse_jwt_payload cfg now token with
  | .error e => .error e
  | .ok payload =>
    match payload.sub with
    | none => .error .missingSubject
    | some userId => .ok userId

/-! ### routes_auth.py : register and login -/

/-- The `account_record` dictionary built by `register` and persisted in
the account store. -/
structure Account where
  id : String
  username : String
  email : String
  hashed_password : String
  created_at : Int
deriving Repr, DecidableEq

/-- An `HTTPException` as raised by the route handlers: status code and
detail string. -/
structure HttpErr where
  status : Nat
  detail : String
deriving Repr, DecidableEq

/-- Modelled from the spec: `database.cosmos_db.get_user_by_email`
(file `database.py` is not under `src/`).  §6 AccountStore:
`findByEmail(email) -> Account|absent`. -/
def get_user_by_email (store : List Account) (email : String) : Option Account :=
  store.find? (fun a => a.email == email)

/-- `routes_auth.register(account_params)`.  The password hasher
(`auth.compute_digest`, backed by bcrypt) is passed in as `hashFn`; the
generated uuid and the current instant are passed as `newId` and `now`.
Returns the result (token and persisted account, or the raised
`HTTPException`) together with the account store after the call; per §6
AccountStore, `create` persists the record. -/
def register (cfg : Settings) (hashFn : String → String)
    (store : List Account) (newId : String)
    (username email password : String) (now : Int) :
    Except HttpErr (RawToken × Account) × List Account :=
  match get_user_by_email store email with
  | some _ =>
      (.error ⟨400, "User with this email already exists"⟩, store)
  | none =>
      let account : Account :=
        { id := newId
          username := username
          email := email
          hashed_password := hashFn password
          created_at := now }
      let token := generate_jwt_token cfg now
        { sub := some newId, email := some email } none
      (.ok (token, account), store ++ [account])

/-- `routes_auth.login(credential_payload)`.  `verifyFn plain digest`
stands for `auth.validate_credential` (bcrypt verification, external to
`src/`).  Both failure paths raise
`HTTPException(401, "Invalid email or password")`. -/
def login (cfg : Settings) (verifyFn : String → String → Bool)
    (store : List Account) (email password : String) (now : Int) :
    Except HttpErr (RawToken × Account) :=
  match get_user_by_email store email with
  | none => .error ⟨401, "Invalid email or password"⟩
  | some account =>
      if verifyFn password account.hashed_password then
        .ok (generate_jwt_token cfg now
          { sub := some account.id, email := some account.email } none, account)
      else
        .error ⟨401, "Invalid email or password"⟩

/-! ### routes_media.py : upload, read, update, delete -/

/-- The media kind classified from the declared content type. -/
inductive MediaKind where
  | image : MediaKind
  | video : MediaKind
deriving Repr, DecidableEq

/-- The error outcomes of the media routes.  `unsupportedType` and
`tooLarge` come from the (spec-modelled) validators; `badTagFormat` is
the 400 "Invalid tags format. Must be a JSON array."; `notFound` is 404,
`forbidden` is 403; `internal msg` is the 500 produced by an
uncaught exception reaching the outer `except Exception` handler. -/
inductive MediaErr where
  | unsupportedType : MediaErr
  | tooLarge (size : Nat) : MediaErr
  | badTagFormat : MediaErr
  | notFound : MediaErr
  | forbidden : MediaErr
  | internal (msg : String) : MediaErr
deriving Repr

/-- The `asset_document` dictionary built by `upload_media` and stored in
the document store.  `tags` is whatever list `json.loads` produced — the
source never checks element types, hence `List Json`. -/
structure MediaAsset where
  id : String
  userId : String
  fileName : String
  originalFileName : String
  mediaType : MediaKind
  fileSize : Nat
  mimeType : String
  blobUrl : String
  thumbnailUrl : Option String
  description : Option String
  tags : Option (List Json)
  uploadedAt : Int
  updatedAt : Int
deriving Repr

/-- A write issued against a collaborator store, recorded in order. -/
inductive Effect where
  | blobPut (filename : String) : Effect
  | blobDelete (storageKey : String) : Effect
  | docCreate (assetId : String) : Effect
  | docDelete (assetId : String) : Effect
deriving Repr, DecidableEq

/-- The collaborator environment of a media request.
`blobPut owner filename contentType` models
`storage.blob_storage.upload_file` — `some (storageKey, publicUrl)` on
success, `none` when the call raises.  `blobDelete key` models
`storage.blob_storage.delete_file` — `false` when the call raises.
`genThumbnail` models `utils.generate_thumbnail(binary_payload)`
(file `utils.py` is not under `src/`); modelled from the spec, §4.4
step 5: thumbnail derivation is best-effort, a failure is logged and
yields no preview bytes, so the model returns `none` on failure and the
preview bytes otherwise. -/
structure Env where
  blobPut : String → String → String → Option (String × String)
  blobDelete : String → Bool
  genThumbnail : Option String

/-- Modelled from the spec: `utils.validate_file_type` (file `utils.py`
is not under `src/`).  §4.4 step 1: classify the declared content type
into `image` or `video`, or fail with `ValidationError::UnsupportedType`;
the classification keys on the content type's major type. -/
def validate_file_type (contentType : String) : Except MediaErr MediaKind :=
  if strStartsWith contentType "image/" then .ok .image
  else if strStartsWith contentType "video/" then .ok .video
  else .error .unsupportedType

/-- Modelled from the spec: `utils.validate_file_size` (file `utils.py`
is not under `src/`).  §4.4 step 2: reject if the byte length exceeds the
configured maximum, failing with `ValidationError::TooLarge` reporting
the actual size; otherwise return the size. -/
def validate_file_size (cfg : Settings) (size : Nat) : Except MediaErr Nat :=
  if size > cfg.max_file_size then .error (.tooLarge size) else .ok size

/-- The `tags` form field as the tag-parsing block of `upload_media`
observes it: Python `if tags:` is false for an absent field and for the
empty string; a non-empty string either fails `json.loads`
(`jsonDecodeError`) or decodes to a JSON value. -/
inductive TagField where
  | absent : TagField
  | emptyString : TagField
  | jsonDecodeError : TagField
  | decoded (value : Json) : TagField

/-- The tag-parsing block of `upload_media` (lines 35–45).  A decode
failure is caught by `except json.JSONDecodeError` and raised as the 400
`badTagFormat`.  A payload that decodes but is not a list raises
`ValueError("Tags must be an array")` — and `json.JSONDecodeError` is the
only exception the inner handler catches, so the `ValueError` escapes to
the route's outer `except Exception` handler and becomes the 500
`internal "Tags must be an array"`.  Element types of a decoded list are
never checked. -/
def parse_tag_field : TagField → Except MediaErr (Option (List Json))
  | .absent => .ok none
  | .emptyString => .ok none
  | .jsonDecodeError => .error .badTagFormat
  | .decoded (.arr elems) => .ok (some elems)
  | .decoded _ => .error (.internal "Tags must be an array")

/-- `routes_media.upload_media`.  `assetId` is the generated uuid and
`now` the ingest instant.  Returns the response (or raised error) paired
with the trace of collaborator writes, in program order.  A primary blob
upload that raises surfaces through the outer handler as a 500.  The
thumbnail branch mirrors the source: only for image kind, only when
derivation produced bytes, and a thumbnail upload failure is caught,
logged and leaves `preview_location = None`. -/
def upload_media (cfg : Settings) (env : Env) (userId : String)
    (filename contentType : String) (size : Nat)
    (description : Option String) (tags : TagField)
    (assetId : String) (now : Int) :
    Except MediaErr MediaAsset × List Effect :=
  match validate_file_type contentType with
  | .error e => (.error e, [])
  | .ok asset_category =>
  match validate_file_size cfg size with
  | .error e => (.error e, [])
  | .ok content_size =>
  match parse_tag_field tags with
  | .error e => (.error e, [])
  | .ok label_collection =>
  match env.blobPut userId filename contentType with
  | none => (.error (.internal "Failed to upload media"), [.blobPut filename])
  | some (storage_identifier, storage_location) =>
    let thumbName := "thumb_" ++ filename
    let (preview_location, thumbEffects) :=
      if asset_category = MediaKind.image then
        match env.genThumbnail with
        | none => (none, [])
        | some _ =>
          match env.blobPut userId thumbName "image/jpeg" with
          | none => (none, [Effect.blobPut thumbName])
          | some (_, loc) => (some loc, [Effect.blobPut thumbName])
      else (none, [])
    let asset_document : MediaAsset :=
      { id := assetId
        userId := userId
        fileName := storage_identifier
        originalFileName := filename
        mediaType := asset_category
        fileSize := content_size
        mimeType := contentType
        blobUrl := storage_location
        thumbnailUrl := preview_location
        description := description
        tags := label_collection
        uploadedAt := now
        updatedAt := now }
    (.ok asset_document,
      Effect.blobPut filename :: thumbEffects ++ [Effect.docCreate assetId])

/-- Modelled from the spec: `database.cosmos_db.get_media_by_id`
(file `database.py` is not under `src/`).  §6 AssetStore:
`findById(assetId) -> MediaAsset|absent` — lookup is by asset id alone;
the requester id the route passes alongside is not a filter (per §4.5 the
route itself must be able to observe a foreign-owned record in order to
answer `Forbidden` rather than `NotFound`). -/
def get_media_record (store : List MediaAsset) (mediaId : String) :
    Option MediaAsset :=
  store.find? (fun a => a.id == mediaId)

/-- `routes_media.get_media_by_id`: 404 when no record exists, 403 when
the record's `userId` differs from the authenticated requester, the
record otherwise. -/
def get_media_by_id (store : List MediaAsset) (mediaId userId : String) :
    Except MediaErr MediaAsset :=
  match get_media_record store mediaId with
  | none => .error .notFound
  | some asset_record =>
    if asset_record.userId ≠ userId then .error .forbidden
    else .ok asset_record

/-- The `property_changes` dictionary built by `update_media_metadata`:
`updatedAt` is always present; `description` and `tags` only when
supplied. -/
structure FieldChanges where
  updatedAt : Int
  description : Option String := none
  tags : Option (List Json) := none

/-- Modelled from the spec: `database.cosmos_db.update_media`
(file `database.py` is not under `src/`).  §6 AssetStore:
`update(assetId, ownerAccountId, fieldChanges) -> MediaAsset` applies the
supplied field changes to the record; §4.5: fields omitted from the
request are left unchanged. -/
def apply_field_changes (a : MediaAsset) (ch : FieldChanges) : MediaAsset :=
  { a with
    updatedAt := ch.updatedAt
    description := match ch.description with
      | some d => some d
      | none => a.description
    tags := match ch.tags with
      | some t => some t
      | none => a.tags }

/-- `routes_media.update_media_metadata`: same existence and ownership
checks as `get_media_by_id`, then builds `property_changes` (always
`updatedAt`, plus whichever of description/tags is non-`None` in the
payload) and writes it through the document store. -/
def update_media_metadata (store : List MediaAsset) (mediaId userId : String)
    (description : Option String) (tags : Option (List Json)) (now : Int) :
    Except MediaErr MediaAsset :=
  match get_media_record store mediaId with
  | none => .error .notFound
  | some asset_record =>
    if asset_record.userId ≠ userId then .error .forbidden
    else
      let property_changes : FieldChanges :=
        { updatedAt := now
          description := description
          tags := tags }
      .ok (apply_field_changes asset_record property_changes)

/-- `routes_media.delete_media`.  After the existence and ownership
checks: the primary blob deletion `blob_storage.delete_file(fileName)` is
*not* wrapped in a `try` — if it raises, the exception reaches the outer
`except Exception` handler, the route answers 500 and the metadata
deletion is never reached.  The thumbnail deletion (only when
`thumbnailUrl` is set, with the key rewritten via `str.replace`) *is*
wrapped, its failure only logged.  Finally the metadata record is
deleted.  Returns the outcome with the trace of attempted deletions. -/
def delete_media (env : Env) (store : List MediaAsset)
    (mediaId userId : String) : Except MediaErr Unit × List Effect :=
  match get_media_record store mediaId with
  | none => (.error .notFound, [])
  | some asset_record =>
    if asset_record.userId ≠ userId then (.error .forbidden, [])
    else
      if env.blobDelete asset_record.fileName then
        let thumbEffects :=
          match asset_record.thumbnailUrl with
          | none => []
          | some _ =>
            let base := lastSeg asset_record.originalFileName
            let preview_identifier :=
              pyReplace asset_record.fileName base ("thumb_" ++ base)
            [Effect.blobDelete preview_identifier]
        (.ok (),
          Effect.blobDelete asset_record.fileName :: thumbEffects
            ++ [Effect.docDelete mediaId])
      else
        (.error (.internal "Failed to delete media"),
          [Effect.blobDelete asset_record.fileName])

/-! ### Concrete fixtures used by witnesses and counterexamples -/

/-- A concrete process-wide configuration: 30-minute default token
lifetime, 1000-byte size limit. -/
def cfgEx : Settings :=
  { jwt_secret_key := "topsecret"
    jwt_algorithm := "HS256"
    jwt_access_token_expire_minutes := 30
    max_file_size := 1000 }

/-- A collaborator environment in which every blob operation succeeds and
thumbnail derivation produces bytes. -/
def envEx : Env :=
  { blobPut := fun owner filename _ =>
      some (owner ++ "/" ++ filename, "https://blob/" ++ owner ++ "/" ++ filename)
    blobDelete := fun _ => true
    genThumbnail := some "previewbytes" }

/-- Like `envEx` but thumbnail derivation fails (yields no bytes). -/
def envNoThumb : Env :=
  { envEx with genThumbnail := none }

/-- Like `envEx` but every blob deletion raises. -/
def envDelFail : Env :=
  { envEx with blobDelete := fun _ => false }

/-- A stored media asset owned by account `alice`, with a thumbnail. -/
def sampleAsset : MediaAsset :=
  { id := "m1"
    userId := "alice"
    fileName := "alice/cat.png"
    originalFileName := "cat.png"
    mediaType := .image
    fileSize := 5
    mimeType := "image/png"
    blobUrl := "https://blob/alice/cat.png"
    thumbnailUrl := some "https://blob/alice/thumb_cat.png"
    description := none
    tags := none
    uploadedAt := 100
    updatedAt := 100 }

/-! ### C1 : getAsset distinguishes NotFound from Forbidden -/

/-- C1: for every store, asset id and requesting account id,
`get_media_by_id` fails with the 404 `notFound` when no record with that
id exists, and with the 403 `forbidden` when the record exists but its
owning account differs from the requester; the two failure kinds are
distinct. -/
theorem getAsset_notFound_forbidden_distinct
    (store : List MediaAsset) (mediaId userId : String) :
    (get_media_record store mediaId = none →
      get_media_by_id store mediaId userId = .error .notFound) ∧
    (∀ a, get_media_record store mediaId = some a → a.userId ≠ userId →
      get_media_by_id store mediaId userId = .error .forbidden) ∧
    MediaErr.notFound ≠ MediaErr.forbidden := by
  refine ⟨fun h => ?_, fun a ha hne => ?_, by simp⟩
  · simp [get_media_by_id, h]
  · simp [get_media_by_id, ha, hne]

/-- C1 witness: in a store holding only `sampleAsset` (id `m1`, owner
`alice`), asking for `m2` is `notFound` and `bob` asking for `m1` is
`forbidden`. -/
theorem getAsset_notFound_forbidden_distinct_witness :
    get_media_by_id [sampleAsset] "m2" "alice" = .error .notFound ∧
    get_media_by_id [sampleAsset] "m1" "bob" = .error .forbidden :=
  ⟨(getAsset_notFound_forbidden_distinct [sampleAsset] "m2" "alice").1 rfl,
   (getAsset_notFound_forbidden_distinct [sampleAsset] "m1" "bob").2.1
     sampleAsset rfl (by simp [sampleAsset])⟩

/-! ### C5 : identity extraction error taxonomy -/

/-- C5: `extract_authenticated_id` fails with `invalidToken` whenever the
token does not decode (in particular: signed with a different key,
malformed, or expired), fails with `missingSubject` when the token
decodes but its claim set has no subject, and returns the subject as the
account id when the token decodes and a subject is present; the two
failure kinds are distinct values of `AuthError`. -/
theorem authenticate_error_taxonomy (cfg : Settings) (now : Int) :
    (∀ tok, jwt_decode cfg.jwt_secret_key now tok = none →
      extract_authenticated_id cfg now tok = .error .invalidToken) ∧
    (∀ tok claims, jwt_decode cfg.jwt_secret_key now tok = some claims →
      claims.sub = none →
      extract_authenticated_id cfg now tok = .error .missingSubject) ∧
    (∀ tok claims s, jwt_decode cfg.jwt_secret_key now tok = some claims →
      claims.sub = some s →
      extract_authenticated_id cfg now tok = .ok s) ∧
    (∀ claims key, key ≠ cfg.jwt_secret_key →
      jwt_decode cfg.jwt_secret_key now (.signed claims key) = none) ∧
    jwt_decode cfg.jwt_secret_key now .malformed = none ∧
    (∀ claims e, claims.exp = some e → e < now →
      jwt_decode cfg.jwt_secret_key now (.signed claims cfg.jwt_secret_key)
        = none) ∧
    AuthError.invalidToken ≠ AuthError.missingSubject := by
  refine ⟨fun tok h => ?_, fun tok claims h hs => ?_, fun tok claims s h hs => ?_,
    fun claims key hk => ?_, rfl, fun claims e he hlt => ?_, by simp⟩
  · simp [extract_authenticated_id, parse_jwt_payload, h]
  · simp [extract_authenticated_id, parse_jwt_payload, h, hs]
  · simp [extract_authenticated_id, parse_jwt_payload, h, hs]
  · simp [jwt_decode, hk]
  · simp [jwt_decode, he, hlt]

/-- C5 witness: under `cfgEx` at time 50 — a token signed with the wrong
key is `invalidToken`; an expired correctly-signed token is
`invalidToken`; a correctly-signed unexpired token without a subject is
`missingSubject`; with a subject it authenticates as that subject. -/
theorem authenticate_error_taxonomy_witness :
    extract_authenticated_id cfgEx 50
      (.signed { sub := some "alice", exp := some 100 } "otherkey")
      = .error .invalidToken ∧
    extract_authenticated_id cfgEx 50
      (.signed { sub := some "alice", exp := some 20 } "topsecret")
      = .error .invalidToken ∧
    extract_authenticated_id cfgEx 50
      (.signed { email := some "a@b.c", exp := some 100 } "topsecret")
      = .error .missingSubject ∧
    extract_authenticated_id cfgEx 50
      (.signed { sub := some "alice", exp := some 100 } "topsecret")
      = .ok "alice" :=
  ⟨(authenticate_error_taxonomy cfgEx 50).1 _
      ((authenticate_error_taxonomy cfgEx 50).2.2.2.1
        { sub := some "alice", exp := some 100 } "otherkey" (by decide)),
   (authenticate_error_taxonomy cfgEx 50).1 _
      ((authenticate_error_taxonomy cfgEx 50).2.2.2.2.2.1
        { sub := some "alice", exp := some 20 } 20 rfl (by decide)),
   (authenticate_error_taxonomy cfgEx 50).2.1 _
      { email := some "a@b.c", exp := some 100 } rfl rfl,
   (authenticate_error_taxonomy cfgEx 50).2.2.1 _
      { sub := some "alice", exp := some 100 } "alice" rfl rfl⟩

/-! ### C6 : token issuance expiry and validation window -/

/-- C6 counterexample: the claim says the expiration instant equals
`now + ttl` for every supplied ttl.  Issuing under `cfgEx` (default
lifetime 30 minutes) at `now = 0` with a supplied ttl of `0` seconds
produces `exp = 1800`, not `exp = 0 + 0`: the source guard
`if expiration_offset:` treats a zero timedelta as falsy and silently
substitutes the configured default. -/
theorem issue_zero_ttl_counterexample :
    generate_jwt_token cfgEx 0 { sub := some "alice" } (some 0)
      = .signed { sub := some "alice", exp := some 1800 } "topsecret" ∧
    generate_jwt_token cfgEx 0 { sub := some "alice" } (some 0)
      ≠ .signed { sub := some "alice", exp := some 0 } "topsecret" :=
  ⟨rfl, by decide⟩

/-- C6 (amended): for every subject-bearing claim set and every *nonzero*
supplied ttl, `generate_jwt_token` signs the claim set (so it still
contains the subject and every other input claim) with the process-wide
secret, setting the expiration instant to `now + ttl`; when the ttl is
omitted — or supplied as zero, which the `if expiration_offset:` guard
treats as omitted — the expiration instant is `now` plus the configured
default lifetime.  The issued token validates via `parse_jwt_payload`
at every instant up to and including its expiration instant and fails
with `invalidToken` strictly afterward. -/
theorem issue_expiry_and_validation_window
    (cfg : Settings) (now : Int) (data : JwtClaims) (off : Int)
    (hoff : off ≠ 0) :
    generate_jwt_token cfg now data (some off)
      = .signed { data with exp := some (now + off) } cfg.jwt_secret_key ∧
    generate_jwt_token cfg now data none
      = .signed
          { data with exp := some (now + cfg.jwt_access_token_expire_minutes * 60) }
          cfg.jwt_secret_key ∧
    generate_jwt_token cfg now data (some 0)
      = .signed
          { data with exp := some (now + cfg.jwt_access_token_expire_minutes * 60) }
          cfg.jwt_secret_key ∧
    (∀ t, t ≤ now + off →
      parse_jwt_payload cfg t (generate_jwt_token cfg now data (some off))
        = .ok { data with exp := some (now + off) }) ∧
    (∀ t, now + off < t →
      parse_jwt_payload cfg t (generate_jwt_token cfg now data (some off))
        = .error .invalidToken) := by
  refine ⟨by simp [generate_jwt_token, hoff], rfl, by simp [generate_jwt_token],
    fun t ht => ?_, fun t ht => ?_⟩
  · simp [generate_jwt_token, hoff, parse_jwt_payload, jwt_decode, not_lt.mpr ht]
  · simp [generate_jwt_token, hoff, parse_jwt_payload, jwt_decode, ht]

/-- C6 witness: under `cfgEx` at `now = 100` with a 60-second ttl, the
token carries `exp = 160`, validates at `t = 160` and fails at
`t = 161`. -/
theorem issue_expiry_and_validation_window_witness :
    generate_jwt_token cfgEx 100 { sub := some "alice" } (some 60)
      = .signed { sub := some "alice", exp := some 160 } "topsecret" ∧
    parse_jwt_payload cfgEx 160
      (generate_jwt_token cfgEx 100 { sub := some "alice" } (some 60))
      = .ok { sub := some "alice", exp := some 160 } ∧
    parse_jwt_payload cfgEx 161
      (generate_jwt_token cfgEx 100 { sub := some "alice" } (some 60))
      = .error .invalidToken :=
  ⟨(issue_expiry_and_validation_window cfgEx 100 { sub := some "alice" } 60
      (by decide)).1,
   (issue_expiry_and_validation_window cfgEx 100 { sub := some "alice" } 60
      (by decide)).2.2.2.1 160 (by decide),
   (issue_expiry_and_validation_window cfgEx 100 { sub := some "alice" } 60
      (by decide)).2.2.2.2 161 (by decide)⟩

/-! ### C7 : duplicate email registration -/

/-- C7: starting from a store with no account under `email`, a first
registration succeeds, and a second registration with the same email then
fails with the 400 duplicate-email error while leaving the account store
exactly as the first registration left it — no second account is
created. -/
theorem register_duplicate_email_rejected
    (cfg : Settings) (hashFn : String → String) (store : List Account)
    (id1 u1 email p1 : String) (now1 : Int)
    (id2 u2 p2 : String) (now2 : Int)
    (hfresh : get_user_by_email store email = none) :
    (∃ tok acc, (register cfg hashFn store id1 u1 email p1 now1).fst
      = .ok (tok, acc)) ∧
    register cfg hashFn (register cfg hashFn store id1 u1 email p1 now1).snd
        id2 u2 email p2 now2
      = (.error ⟨400, "User with this email already exists"⟩,
         (register cfg hashFn store id1 u1 email p1 now1).snd) := by
  have hdup : get_user_by_email
      (store ++ [{ id := id1, username := u1, email := email,
                   hashed_password := hashFn p1, created_at := now1 }]) email
      = some { id := id1, username := u1, email := email,
               hashed_password := hashFn p1, created_at := now1 } := by
    unfold get_user_by_email at hfresh ⊢
    simp [List.find?_append, hfresh]
  constructor
  · exact ⟨generate_jwt_token cfg now1 { sub := some id1, email := some email }
        none,
      { id := id1, username := u1, email := email,
        hashed_password := hashFn p1, created_at := now1 },
      by simp [register, hfresh]⟩
  · simp [register, hfresh, hdup]

/-- C7 witness: registering `alice@x.io` twice into an initially empty
store — the first succeeds, the second answers the 400 duplicate-email
error and the store still holds exactly the one account. -/
theorem register_duplicate_email_rejected_witness :
    (∃ tok acc,
      (register cfgEx (fun p => "bcrypt$" ++ p) [] "id1" "alice" "alice@x.io"
        "pw1" 100).fst = .ok (tok, acc)) ∧
    register cfgEx (fun p => "bcrypt$" ++ p)
        (register cfgEx (fun p => "bcrypt$" ++ p) [] "id1" "alice" "alice@x.io"
          "pw1" 100).snd
        "id2" "alice2" "alice@x.io" "pw2" 200
      = (.error ⟨400, "User with this email already exists"⟩,
         (register cfgEx (fun p => "bcrypt$" ++ p) [] "id1" "alice" "alice@x.io"
           "pw1" 100).snd) :=
  register_duplicate_email_rejected cfgEx (fun p => "bcrypt$" ++ p) []
    "id1" "alice" "alice@x.io" "pw1" 100 "id2" "alice2" "pw2" 200 rfl

/-! ### C10 : login failure indistinguishability -/

/-- C10: the error `login` returns when no account exists under the
supplied email is literally the same `HttpErr` value — same status, same
message — as the error returned when the account exists but the password
does not verify, so the response does not reveal which cause occurred. -/
theorem login_failures_indistinguishable
    (cfg : Settings) (verifyFn : String → String → Bool)
    (store1 : List Account) (e1 p1 : String) (now1 : Int)
    (store2 : List Account) (e2 p2 : String) (now2 : Int) (a : Account)
    (h1 : get_user_by_email store1 e1 = none)
    (h2 : get_user_by_email store2 e2 = some a)
    (h3 : verifyFn p2 a.hashed_password = false) :
    login cfg verifyFn store1 e1 p1 now1
      = .error ⟨401, "Invalid email or password"⟩ ∧
    login cfg verifyFn store2 e2 p2 now2
      = login cfg verifyFn store1 e1 p1 now1 := by
  constructor
  · simp [login, h1]
  · simp [login, h1, h2, h3]

/-- C10 witness: an unknown email against an empty store and a wrong
password against a store holding `bob`'s account produce the identical
401 response. -/
theorem login_failures_indistinguishable_witness :
    login cfgEx (fun p d => p ++ "!" == d) [] "ghost@x.io" "pw" 10
      = .error ⟨401, "Invalid email or password"⟩ ∧
    login cfgEx (fun p d => p ++ "!" == d)
        [{ id := "id9", username := "bob", email := "bob@x.io",
           hashed_password := "secret!", created_at := 5 }]
        "bob@x.io" "wrongpw" 10
      = login cfgEx (fun p d => p ++ "!" == d) [] "ghost@x.io" "pw" 10 :=
  login_failures_indistinguishable cfgEx (fun p d => p ++ "!" == d)
    [] "ghost@x.io" "pw" 10
    [{ id := "id9", username := "bob", email := "bob@x.io",
       hashed_password := "secret!", created_at := 5 }]
    "bob@x.io" "wrongpw" 10
    { id := "id9", username := "bob", email := "bob@x.io",
      hashed_password := "secret!", created_at := 5 }
    rfl rfl (by decide)

/-! ### C2 : tag validation on upload -/

/-- C2 counterexample: the claim says any supplied tag payload that is
not a JSON array *of strings* fails with `badTagFormat`.  Two concrete
inputs falsify it.  Uploading with a tag payload that decodes to the
JSON object `{}` — valid JSON, not an array — fails with the 500
`internal "Tags must be an array"` instead: the `ValueError` raised for
a non-list decode is not a `json.JSONDecodeError`, so the inner handler
does not catch it and it surfaces through the route's outer
`except Exception` handler.  And uploading with a tag payload that
decodes to the JSON array `[1]` — an array, but not of strings —
does not fail at all: the upload succeeds and stores `[1]` as the tags,
since the source never checks element types. -/
theorem upload_nonArray_tags_counterexample :
    (upload_media cfgEx envEx "alice" "cat.png" "image/png" 5 none
        (.decoded (.obj [])) "m1" 100).fst
      = .error (.internal "Tags must be an array") ∧
    (Except.error (MediaErr.internal "Tags must be an array")
        : Except MediaErr MediaAsset)
      ≠ .error .badTagFormat ∧
    (upload_media cfgEx envEx "alice" "cat.png" "image/png" 5 none
        (.decoded (.arr [Json.num 1])) "m1" 100).fst
      = .ok { id := "m1", userId := "alice", fileName := "alice/cat.png",
              originalFileName := "cat.png", mediaType := .image,
              fileSize := 5, mimeType := "image/png",
              blobUrl := "https://blob/alice/cat.png",
              thumbnailUrl := some "https://blob/alice/thumb_cat.png",
              description := none, tags := some [Json.num 1],
              uploadedAt := 100, updatedAt := 100 } :=
  ⟨rfl, by simp, rfl⟩

/-- C2 (amended): for every upload request that passes type and size
validation, a supplied tag payload that is not valid JSON fails with the
400 `badTagFormat`, and a payload that is valid JSON but not an array
fails with the 500 `internal "Tags must be an array"` (the escaping
`ValueError`, not `badTagFormat`); in both cases the failure occurs
before any blob-store or document-store write — the effect trace is
empty.  A payload decoding to a JSON array, whatever its element types,
passes tag validation with the array kept as-is, and when the primary
blob write succeeds the upload succeeds with exactly that array stored
as the tags. -/
theorem upload_bad_tags_rejected_before_any_write
    (cfg : Settings) (env : Env) (userId filename contentType : String)
    (size : Nat) (desc : Option String) (assetId : String) (now : Int)
    (kind : MediaKind) (j : Json)
    (hty : validate_file_type contentType = .ok kind)
    (hsz : size ≤ cfg.max_file_size)
    (hj : ∀ elems, j ≠ Json.arr elems) :
    upload_media cfg env userId filename contentType size desc
        .jsonDecodeError assetId now
      = (.error .badTagFormat, []) ∧
    upload_media cfg env userId filename contentType size desc
        (.decoded j) assetId now
      = (.error (.internal "Tags must be an array"), []) ∧
    (∀ elems, parse_tag_field (.decoded (.arr elems)) = .ok (some elems)) ∧
    (∀ elems key url,
      env.blobPut userId filename contentType = some (key, url) →
      ∃ a, (upload_media cfg env userId filename contentType size desc
              (.decoded (.arr elems)) assetId now).fst = .ok a ∧
           a.tags = some elems) := by
  have hps : validate_file_size cfg size = .ok size := by
    unfold validate_file_size
    rw [if_neg (by omega)]
  have hpt : parse_tag_field (.decoded j)
      = .error (.internal "Tags must be an array") := by
    cases j with
    | arr elems => exact absurd rfl (hj elems)
    | null => rfl
    | bool b => rfl
    | num n => rfl
    | str s => rfl
    | obj fields => rfl
  refine ⟨?_, ?_, fun elems => rfl, fun elems key url hput => ?_⟩
  · simp [upload_media, hty, hps, parse_tag_field]
  · simp [upload_media, hty, hps, hpt]
  · cases kind with
    | video =>
      simp [upload_media, hty, hps, parse_tag_field, hput]
    | image =>
      cases hthumb : env.genThumbnail with
      | none =>
        simp [upload_media, hty, hps, parse_tag_field, hput, hthumb]
      | some bytes =>
        cases htput : env.blobPut userId ("thumb_" ++ filename) "image/jpeg" with
        | none =>
          simp [upload_media, hty, hps, parse_tag_field, hput, hthumb, htput]
        | some pair2 =>
          simp [upload_media, hty, hps, parse_tag_field, hput, hthumb, htput]

/-- C2 witness: under `cfgEx`/`envEx`, a 5-byte `image/png` upload with a
malformed tag string is the 400 `badTagFormat` with no writes; with a
tag string decoding to `{}` it is the 500 internal error with no writes;
and with a tag string decoding to the non-string array `[1]` the tag
step accepts the array and the upload succeeds storing `[1]` as the
tags. -/
theorem upload_bad_tags_rejected_before_any_write_witness :
    upload_media cfgEx envEx "alice" "cat.png" "image/png" 5 none
        .jsonDecodeError "m1" 100
      = (.error .badTagFormat, []) ∧
    upload_media cfgEx envEx "alice" "cat.png" "image/png" 5 none
        (.decoded (.obj [])) "m1" 100
      = (.error (.internal "Tags must be an array"), []) ∧
    parse_tag_field (.decoded (.arr [Json.num 1])) = .ok (some [Json.num 1]) ∧
    (∃ a, (upload_media cfgEx envEx "alice" "cat.png" "image/png" 5 none
            (.decoded (.arr [Json.num 1])) "m1" 100).fst = .ok a ∧
          a.tags = some [Json.num 1]) :=
  ⟨(upload_bad_tags_rejected_before_any_write cfgEx envEx "alice" "cat.png"
      "image/png" 5 none "m1" 100 .image (.obj []) rfl (by decide)
      (fun elems h => Json.noConfusion h)).1,
   (upload_bad_tags_rejected_before_any_write cfgEx envEx "alice" "cat.png"
      "image/png" 5 none "m1" 100 .image (.obj []) rfl (by decide)
      (fun elems h => Json.noConfusion h)).2.1,
   (upload_bad_tags_rejected_before_any_write cfgEx envEx "alice" "cat.png"
      "image/png" 5 none "m1" 100 .image (.obj []) rfl (by decide)
      (fun elems h => Json.noConfusion h)).2.2.1 [Json.num 1],
   (upload_bad_tags_rejected_before_any_write cfgEx envEx "alice" "cat.png"
      "image/png" 5 none "m1" 100 .image (.obj []) rfl (by decide)
      (fun elems h => Json.noConfusion h)).2.2.2 [Json.num 1]
      "alice/cat.png" "https://blob/alice/cat.png" rfl⟩

/-! ### C3 : delete is best-effort on the thumbnail only -/

/-- C3 counterexample: the claim says a failure of any blob deletion —
primary included — is tolerated and the metadata deletion is always
performed.  Deleting `sampleAsset` (owned by the requester, thumbnail
present) in an environment where blob deletion raises: the primary
deletion failure propagates to the outer handler, the route answers the
500 internal error, and no metadata deletion is issued. -/
theorem delete_primary_blob_failure_counterexample :
    (delete_media envDelFail [sampleAsset] "m1" "alice").fst
      = .error (.internal "Failed to delete media") ∧
    Effect.docDelete "m1" ∉ (delete_media envDelFail [sampleAsset] "m1" "alice").snd :=
  ⟨rfl, by decide⟩

/-- C3 (amended): for every delete of an owned, existing asset — when
the primary blob deletion succeeds, the operation succeeds and the
metadata deletion is always issued, whatever the thumbnail deletion does
(its failure is only logged); but when the primary blob deletion fails,
the operation aborts with the 500 internal error and the metadata
deletion is not performed — best-effort holds only for the thumbnail. -/
theorem delete_thumbnail_best_effort_primary_aborts
    (env : Env) (store : List MediaAsset) (mediaId userId : String)
    (a : MediaAsset)
    (hfind : get_media_record store mediaId = some a)
    (hown : a.userId = userId) :
    (env.blobDelete a.fileName = true →
      (delete_media env store mediaId userId).fst = .ok () ∧
      Effect.docDelete mediaId ∈ (delete_media env store mediaId userId).snd) ∧
    (env.blobDelete a.fileName = false →
      (delete_media env store mediaId userId).fst
        = .error (.internal "Failed to delete media") ∧
      Effect.docDelete mediaId ∉ (delete_media env store mediaId userId).snd) := by
  constructor
  · intro hdel
    constructor
    · simp [delete_media, hfind, hown, hdel]
    · cases hthumb : a.thumbnailUrl <;>
        simp [delete_media, hfind, hown, hdel, hthumb]
  · intro hdel
    constructor
    · simp [delete_media, hfind, hown, hdel]
    · simp [delete_media, hfind, hown, hdel]

/-- C3 witness: deleting `sampleAsset` as its owner in `envEx` (blob
deletions succeed) returns 204 and the trace contains the metadata
deletion. -/
theorem delete_thumbnail_best_effort_primary_aborts_witness :
    (delete_media envEx [sampleAsset] "m1" "alice").fst = .ok () ∧
    Effect.docDelete "m1" ∈ (delete_media envEx [sampleAsset] "m1" "alice").snd :=
  (delete_thumbnail_best_effort_primary_aborts envEx [sampleAsset] "m1"
    "alice" sampleAsset rfl rfl).1 rfl

/-! ### C4 : thumbnail derivation is best-effort on image uploads -/

/-- C4: for every image upload under the size limit whose tag payload is
accepted and whose primary blob write succeeds — if thumbnail derivation
fails the upload still succeeds with an absent `thumbnailUrl`; if
derivation succeeds but the thumbnail blob write fails the upload still
succeeds with an absent `thumbnailUrl`; if both succeed `thumbnailUrl`
is the returned thumbnail location.  Moreover, for any upload (image or
video kind) that returns an asset, a present `thumbnailUrl` implies the
kind is image, derivation produced bytes and the thumbnail blob write
succeeded with exactly that location. -/
theorem upload_thumbnail_best_effort
    (cfg : Settings) (env : Env) (userId filename contentType : String)
    (size : Nat) (desc : Option String) (tags : TagField)
    (assetId : String) (now : Int)
    (label : Option (List Json)) (key url : String)
    (hty : validate_file_type contentType = .ok .image)
    (hsz : size ≤ cfg.max_file_size)
    (htags : parse_tag_field tags = .ok label)
    (hput : env.blobPut userId filename contentType = some (key, url)) :
    (env.genThumbnail = none →
      upload_media cfg env userId filename contentType size desc tags assetId now
        = (.ok { id := assetId, userId := userId, fileName := key,
                 originalFileName := filename, mediaType := .image,
                 fileSize := size, mimeType := contentType, blobUrl := url,
                 thumbnailUrl := none, description := desc, tags := label,
                 uploadedAt := now, updatedAt := now },
           [Effect.blobPut filename, Effect.docCreate assetId])) ∧
    (∀ bytes, env.genThumbnail = some bytes →
      env.blobPut userId ("thumb_" ++ filename) "image/jpeg" = none →
      upload_media cfg env userId filename contentType size desc tags assetId now
        = (.ok { id := assetId, userId := userId, fileName := key,
                 originalFileName := filename, mediaType := .image,
                 fileSize := size, mimeType := contentType, blobUrl := url,
                 thumbnailUrl := none, description := desc, tags := label,
                 uploadedAt := now, updatedAt := now },
           [Effect.blobPut filename, Effect.blobPut ("thumb_" ++ filename),
            Effect.docCreate assetId])) ∧
    (∀ bytes key2 loc2, env.genThumbnail = some bytes →
      env.blobPut userId ("thumb_" ++ filename) "image/jpeg" = some (key2, loc2) →
      upload_media cfg env userId filename contentType size desc tags assetId now
        = (.ok { id := assetId, userId := userId, fileName := key,
                 originalFileName := filename, mediaType := .image,
                 fileSize := size, mimeType := contentType, blobUrl := url,
                 thumbnailUrl := some loc2, description := desc, tags := label,
                 uploadedAt := now, updatedAt := now },
           [Effect.blobPut filename, Effect.blobPut ("thumb_" ++ filename),
            Effect.docCreate assetId])) ∧
    (∀ ct kd a, validate_file_type ct = .ok kd →
      (upload_media cfg env userId filename ct size desc tags assetId now).fst
        = .ok a →
      a.thumbnailUrl.isSome →
      a.mediaType = .image ∧ env.genThumbnail.isSome ∧
      ∃ key2 loc2,
        env.blobPut userId ("thumb_" ++ filename) "image/jpeg" = some (key2, loc2)
          ∧ a.thumbnailUrl = some loc2) := by
  have hps : validate_file_size cfg size = .ok size := by
    unfold validate_file_size
    rw [if_neg (by omega)]
  refine ⟨fun hthumb => ?_, fun bytes hthumb htput => ?_,
    fun bytes key2 loc2 hthumb htput => ?_, fun ct kd a hty2 hok hsome => ?_⟩
  · simp [upload_media, hty, hps, htags, hput, hthumb]
  · simp [upload_media, hty, hps, htags, hput, hthumb, htput]
  · simp [upload_media, hty, hps, htags, hput, hthumb, htput]
  · rw [upload_media] at hok
    rw [hty2, hps, htags] at hok
    cases hput2 : env.blobPut userId filename ct with
    | none => rw [hput2] at hok; simp at hok
    | some pair =>
      obtain ⟨key3, url3⟩ := pair
      rw [hput2] at hok
      cases kd with
      | video =>
        simp at hok
        rw [← hok] at hsome
        simp at hsome
      | image =>
        cases hthumb : env.genThumbnail with
        | none =>
          simp [hthumb] at hok
          rw [← hok] at hsome
          simp at hsome
        | some bytes =>
          cases htput : env.blobPut userId ("thumb_" ++ filename) "image/jpeg" with
          | none =>
            simp [hthumb, htput] at hok
            rw [← hok] at hsome
            simp at hsome
          | some pair2 =>
            obtain ⟨key2, loc2⟩ := pair2
            simp [hthumb, htput] at hok
            rw [← hok]
            exact ⟨rfl, rfl, key2, loc2, rfl, rfl⟩

/-- C4 witness: a 5-byte `image/png` upload in `envNoThumb` (derivation
fails) still succeeds, with no `thumbnailUrl`; the same upload in `envEx`
succeeds with the thumbnail location. -/
theorem upload_thumbnail_best_effort_witness :
    upload_media cfgEx envNoThumb "alice" "cat.png" "image/png" 5 none
        .absent "m1" 100
      = (.ok { id := "m1", userId := "alice", fileName := "alice/cat.png",
               originalFileName := "cat.png", mediaType := .image,
               fileSize := 5, mimeType := "image/png",
               blobUrl := "https://blob/alice/cat.png",
               thumbnailUrl := none, description := none, tags := none,
               uploadedAt := 100, updatedAt := 100 },
         [Effect.blobPut "cat.png", Effect.docCreate "m1"]) ∧
    upload_media cfgEx envEx "alice" "cat.png" "image/png" 5 none
        .absent "m1" 100
      = (.ok { id := "m1", userId := "alice", fileName := "alice/cat.png",
               originalFileName := "cat.png", mediaType := .image,
               fileSize := 5, mimeType := "image/png",
               blobUrl := "https://blob/alice/cat.png",
               thumbnailUrl := some "https://blob/alice/thumb_cat.png",
               description := none, tags := none,
               uploadedAt := 100, updatedAt := 100 },
         [Effect.blobPut "cat.png", Effect.blobPut "thumb_cat.png",
          Effect.docCreate "m1"]) :=
  ⟨(upload_thumbnail_best_effort cfgEx envNoThumb "alice" "cat.png"
      "image/png" 5 none .absent "m1" 100 none "alice/cat.png"
      "https://blob/alice/cat.png" rfl (by decide) rfl rfl).1 rfl,
   (upload_thumbnail_best_effort cfgEx envEx "alice" "cat.png"
      "image/png" 5 none .absent "m1" 100 none "alice/cat.png"
      "https://blob/alice/cat.png" rfl (by decide) rfl rfl).2.2.1
      "previewbytes" "alice/thumb_cat.png" "https://blob/alice/thumb_cat.png"
      rfl rfl⟩

/-! ### C8 : oversized uploads are rejected before any write -/

/-- C8: for every upload request whose declared content type classifies
(so the pipeline reaches the size check) and whose byte length exceeds
the configured maximum, the upload fails with `tooLarge` carrying the
actual size, and the effect trace is empty — no blob-store and no
document-store write occurs. -/
theorem upload_too_large_no_writes
    (cfg : Settings) (env : Env) (userId filename contentType : String)
    (size : Nat) (desc : Option String) (tags : TagField)
    (assetId : String) (now : Int) (kind : MediaKind)
    (hty : validate_file_type contentType = .ok kind)
    (hsz : size > cfg.max_file_size) :
    upload_media cfg env userId filename contentType size desc tags assetId now
      = (.error (.tooLarge size), []) := by
  simp [upload_media, hty, validate_file_size, hsz]

/-- C8 witness: a 2000-byte upload under `cfgEx` (limit 1000) fails with
`tooLarge 2000` and an empty effect trace. -/
theorem upload_too_large_no_writes_witness :
    upload_media cfgEx envEx "alice" "cat.png" "image/png" 2000 none
        .absent "m1" 100
      = (.error (.tooLarge 2000), []) :=
  upload_too_large_no_writes cfgEx envEx "alice" "cat.png" "image/png" 2000
    none .absent "m1" 100 .image rfl (by decide)

/-! ### C9 : metadata update frame conditions -/

/-- C9: updating an owned, existing asset with only a description leaves
the stored tags (and every field other than description and `updatedAt`)
unchanged, replaces the description and refreshes `updatedAt`;
symmetrically, updating with only tags leaves the description (and every
other field) unchanged. -/
theorem update_description_only_frame
    (store : List MediaAsset) (mediaId userId : String) (d : String)
    (now : Int) (a : MediaAsset)
    (hfind : get_media_record store mediaId = some a)
    (hown : a.userId = userId) :
    update_media_metadata store mediaId userId (some d) none now
      = .ok { a with description := some d, updatedAt := now } ∧
    (∀ ts, update_media_metadata store mediaId userId none (some ts) now
      = .ok { a with tags := some ts, updatedAt := now }) := by
  constructor
  · simp [update_media_metadata, hfind, hown, apply_field_changes]
  · intro ts
    simp [update_media_metadata, hfind, hown, apply_field_changes]

/-- C9 witness: updating `sampleAsset` with only a description keeps its
tags and identity fields and refreshes `updatedAt` to 200; updating with
only tags keeps its description. -/
theorem update_description_only_frame_witness :
    update_media_metadata [sampleAsset] "m1" "alice" (some "hello") none 200
      = .ok { sampleAsset with description := some "hello", updatedAt := 200 } ∧
    update_media_metadata [sampleAsset] "m1" "alice" none
        (some [Json.str "pet"]) 200
      = .ok { sampleAsset with tags := some [Json.str "pet"], updatedAt := 200 } :=
  ⟨(update_description_only_frame [sampleAsset] "m1" "alice" "hello" 200
      sampleAsset rfl rfl).1,
   (update_description_only_frame [sampleAsset] "m1" "alice" "hello" 200
      sampleAsset rfl rfl).2 [Json.str "pet"]⟩

end ProjectA
